import Mathlib

/-! Formal model of the repost bot (`script.py`): the harvest-dedup-act engine.
Pure functions (`extract_status_signature`, the duplicate filters, the embedded
signature extractor, the cookie parser) are translated directly; the stateful
engines (`scroll_and_capture_links`, `retweet_post`, the per-chat tally) are
translated as interpreters over explicit driver records whose fields model the
Playwright page operations the source invokes.  Machine strings are modelled as
Lean `String` (`List Char` underneath); the few regular expressions of the
source are unfolded into explicit character scans, each documented at its
definition. -/

namespace RepostBot

/-! Character-level utilities.  The source manipulates Python strings; we model
them with `String`/`List Char` and hand-rolled structural scans so every
definition is executable by the kernel. -/

/-- True when `pat` occurs as a contiguous substring of `s`
(Python `pat in s`). -/
def hasSubstr (pat : List Char) : List Char → Bool
  | [] => pat.isEmpty
  | c :: rest => pat.isPrefixOf (c :: rest) || hasSubstr pat rest

/-- Split a character list at every occurrence of `sep`, keeping empty
segments (Python `s.split(sep)` with an explicit separator). -/
def splitOnChar (sep : Char) : List Char → List (List Char)
  | [] => [[]]
  | c :: rest =>
    let r := splitOnChar sep rest
    if c = sep then [] :: r
    else
      match r with
      | [] => [[c]]
      | seg :: segs => (c :: seg) :: segs

/-- Split a character list at every whitespace character, keeping empty
segments; filtering the empties afterwards gives Python `s.split()`. -/
def splitOnWhite : List Char → List (List Char)
  | [] => [[]]
  | c :: rest =>
    let r := splitOnWhite rest
    if c.isWhitespace then [] :: r
    else
      match r with
      | [] => [[c]]
      | seg :: segs => (c :: seg) :: segs

/-- Python `s.split()`: whitespace-separated words, empties discarded. -/
def wordsOf (s : List Char) : List (List Char) :=
  (splitOnWhite s).filter (fun w => !w.isEmpty)

/-- Join character-list segments with a separator (Python `sep.join`). -/
def joinSepChars (sep : List Char) : List (List Char) → List Char
  | [] => []
  | [w] => w
  | w :: ws => w ++ sep ++ joinSepChars sep ws

/-- Join strings with a separator (Python `sep.join(parts)`). -/
def joinSepStr (sep : String) : List String → String
  | [] => ""
  | [w] => w
  | w :: ws => w ++ sep ++ joinSepStr sep ws

/-- Strip leading and trailing whitespace (Python `s.strip()`; Python strips a
couple of rare extra control characters, which never appear here). -/
def stripChars (s : List Char) : List Char :=
  ((s.dropWhile Char.isWhitespace).reverse.dropWhile Char.isWhitespace).reverse

/-- Lowercase every character (Python `s.lower()`; the source only compares
ASCII words "retweet"/"repost", for which `Char.toLower` agrees). -/
def lowerStr (s : String) : String :=
  ⟨s.data.map Char.toLower⟩

/-! Link signature extraction, from `extract_status_signature`
(`script.py` lines 312-342). -/

/-- Characters allowed in a URL scheme by Python `urllib.parse`
(`[a-zA-Z0-9+.-]`, with a leading letter checked by the caller's prefix). -/
def schemeChar (c : Char) : Bool :=
  c.isAlphanum || c == '+' || c == '-' || c == '.'

/-- Modelled `urllib.parse.urlparse(h).path` for strings beginning with
"http": the scheme (up to the first ':') is removed when well formed, a
following "//authority" is skipped up to the next '/', '?' or '#', and the
query/fragment are cut off.  The `;params` split of `urlparse` never changes
whether the result matches the status pattern and is not modelled; the
source's `except` around `urlparse` (which fires only on malformed bracketed
authorities) is likewise not modelled — this parser is total. -/
def urlPathChars (h : List Char) : List Char :=
  let pre := h.takeWhile (fun c => c != ':')
  if pre.length < h.length ∧ pre ≠ [] ∧ pre.all schemeChar then
    let rest := h.drop (pre.length + 1)
    let rest2 :=
      if ("//".data).isPrefixOf rest then
        (rest.drop 2).dropWhile (fun c => !(c == '/' || c == '?' || c == '#'))
      else rest
    rest2.takeWhile (fun c => !(c == '?' || c == '#'))
  else h.takeWhile (fun c => !(c == '?' || c == '#'))

/-- Model of `re.match(r'/([^/]+)/status/(\d+)', path)`: the path must start
with '/', a nonempty first segment, a literal "status" segment, and a segment
beginning with at least one digit; the id is the maximal leading digit run
(the regex tolerates trailing characters).  Because `[^/]+` cannot cross '/',
the regex groups are exactly these segments.  Python `\d` also accepts
non-ASCII decimal digits; status ids are ASCII, so `Char.isDigit` is used. -/
def statusPathMatch (path : List Char) : Option (String × String) :=
  match splitOnChar '/' path with
  | [] :: account :: seg3 :: seg4 :: _ =>
    if account ≠ [] ∧ seg3 = ("status".data) then
      let id := seg4.takeWhile Char.isDigit
      if id ≠ [] then some (⟨account⟩, ⟨id⟩) else none
    else none
  | _ => none

/-- `extract_status_signature` (lines 312-342): `None`/empty href yields no
signature; an href starting with "http" is parsed as a URL and its path used,
otherwise the href itself is the path; the result is the
`(account_name, status_id)` pair of `/account/status/digits`. -/
def extract_status_signature (href : Option String) : Option (String × String) :=
  match href with
  | none => none
  | some h =>
    if h = "" then none
    else
      let path := if ("http".data).isPrefixOf h.data then urlPathChars h.data else h.data
      statusPathMatch path

/-! Candidate data model.  A captured item is a dict
`{'href': ..., 'type': ..., 'element': ..., 'signature': ...}` in the source;
`element` is an opaque Playwright handle compared by object identity, modelled
as a numeric handle.  Direct-link items carry no `'signature'` key, so
`.get('signature')` is `None` for them. -/

/-- The two `'type'` tags the capture code creates. -/
inductive LinkKind
  | direct_link
  | embedded
deriving DecidableEq

/-- One captured candidate. -/
structure LinkItem where
  kind : LinkKind
  href : Option String
  element : Nat
  signature : Option String
deriving DecidableEq

/-- Python truthiness of an optional string: `None` and `""` are falsy. -/
def truthyStr : Option String → Option String
  | none => none
  | some s => if s = "" then none else some s

/-! Capture deduplicators, from `filter_duplicate_direct_links`
(lines 345-376) and `filter_duplicate_embedded_links` (lines 435-466). -/

/-- Loop of `filter_duplicate_direct_links`: direct links with a status
signature are kept at first occurrence of the signature; direct links without
a signature, and all other kinds, are kept unconditionally. -/
def fddlGo : List LinkItem → List (String × String) → List LinkItem
  | [], _ => []
  | item :: rest, seen =>
    if item.kind = LinkKind.direct_link then
      match extract_status_signature item.href with
      | some sig =>
        if sig ∈ seen then fddlGo rest seen
        else item :: fddlGo rest (sig :: seen)
      | none => item :: fddlGo rest seen
    else item :: fddlGo rest seen

/-- `filter_duplicate_direct_links` (lines 345-376). -/
def filter_duplicate_direct_links (captured_links : List LinkItem) : List LinkItem :=
  fddlGo captured_links []

/-- Loop of `filter_duplicate_embedded_links`: embedded items with a truthy
signature are kept at first occurrence; embedded items with `None` or `""`
signature (`if signature:` is false), and all other kinds, are kept
unconditionally. -/
def fdelGo : List LinkItem → List String → List LinkItem
  | [], _ => []
  | item :: rest, seen =>
    if item.kind = LinkKind.embedded then
      match item.signature with
      | some sig =>
        if sig = "" then item :: fdelGo rest seen
        else if sig ∈ seen then fdelGo rest seen
        else item :: fdelGo rest (sig :: seen)
      | none => item :: fdelGo rest seen
    else item :: fdelGo rest seen

/-- `filter_duplicate_embedded_links` (lines 435-466). -/
def filter_duplicate_embedded_links (captured_links : List LinkItem) : List LinkItem :=
  fdelGo captured_links []

/-- The deduplication pipeline as `scroll_and_capture_links` applies it
(lines 664-669): first the direct-link filter, then the embedded filter. -/
def dedup_pipeline (captured_links : List LinkItem) : List LinkItem :=
  filter_duplicate_embedded_links (filter_duplicate_direct_links captured_links)

/-! Both duplicate filters have the same shape: keep every item whose dedup
key is absent, keep the first occurrence per key otherwise.  `dedupGo`
captures that shape; the two loops are proved equal to its instances at
`keyDirect` and `keyEmbedded`, and the reusable lemmas are stated about it. -/

/-- The dedup key `filter_duplicate_direct_links` uses: the status signature,
for direct links only. -/
def keyDirect (it : LinkItem) : Option (String × String) :=
  if it.kind = LinkKind.direct_link then extract_status_signature it.href else none

/-- The dedup key `filter_duplicate_embedded_links` uses: the truthy stored
signature, for embedded items only. -/
def keyEmbedded (it : LinkItem) : Option String :=
  if it.kind = LinkKind.embedded then truthyStr it.signature else none

/-- Generic first-occurrence filter over an optional key. -/
def dedupGo {K : Type} [DecidableEq K] (key : LinkItem → Option K) :
    List LinkItem → List K → List LinkItem
  | [], _ => []
  | item :: rest, seen =>
    match key item with
    | some k =>
      if k ∈ seen then dedupGo key rest seen
      else item :: dedupGo key rest (k :: seen)
    | none => item :: dedupGo key rest seen

theorem fddlGo_eq_dedupGo (l : List LinkItem) (seen : List (String × String)) :
    fddlGo l seen = dedupGo keyDirect l seen := by
  induction l generalizing seen with
  | nil => simp [fddlGo, dedupGo]
  | cons it rest ih =>
    by_cases hk : it.kind = LinkKind.direct_link
    · cases hs : extract_status_signature it.href with
      | some sig => simp [fddlGo, dedupGo, keyDirect, hk, hs, ih]
      | none => simp [fddlGo, dedupGo, keyDirect, hk, hs, ih]
    · simp [fddlGo, dedupGo, keyDirect, hk, ih]

theorem fdelGo_eq_dedupGo (l : List LinkItem) (seen : List String) :
    fdelGo l seen = dedupGo keyEmbedded l seen := by
  induction l generalizing seen with
  | nil => simp [fdelGo, dedupGo]
  | cons it rest ih =>
    by_cases hk : it.kind = LinkKind.embedded
    · cases hs : it.signature with
      | some sig =>
        by_cases he : sig = ""
        · simp [fdelGo, dedupGo, keyEmbedded, truthyStr, hk, hs, he, ih]
        · simp [fdelGo, dedupGo, keyEmbedded, truthyStr, hk, hs, he, ih]
      | none => simp [fdelGo, dedupGo, keyEmbedded, truthyStr, hk, hs, ih]
    · simp [fdelGo, dedupGo, keyEmbedded, hk, ih]

theorem dedupGo_sublist {K : Type} [DecidableEq K] (key : LinkItem → Option K) :
    ∀ (l : List LinkItem) (seen : List K), List.Sublist (dedupGo key l seen) l := by
  intro l
  induction l with
  | nil => intro seen; simp [dedupGo]
  | cons it rest ih =>
    intro seen
    cases hk : key it with
    | some k =>
      by_cases hs : k ∈ seen
      · simpa [dedupGo, hk, hs] using (ih seen).cons it
      · simpa [dedupGo, hk, hs] using (ih (k :: seen)).cons₂ it
    | none => simpa [dedupGo, hk] using (ih seen).cons₂ it

theorem dedupGo_filter_key {K : Type} [DecidableEq K] (key : LinkItem → Option K)
    (k : K) :
    ∀ (l : List LinkItem) (seen : List K),
      (dedupGo key l seen).filter (fun it => decide (key it = some k)) =
        if k ∈ seen then []
        else (l.filter (fun it => decide (key it = some k))).take 1 := by
  intro l
  induction l with
  | nil =>
    intro seen
    by_cases hs : k ∈ seen <;> simp [dedupGo, hs]
  | cons it rest ih =>
    intro seen
    cases hkey : key it with
    | some t =>
      by_cases hts : t ∈ seen
      · by_cases hk : k ∈ seen
        · simp [dedupGo, hkey, hts, hk, ih]
        · have htk : ¬ t = k := fun h => hk (h ▸ hts)
          simp [dedupGo, hkey, hts, hk, ih, List.filter_cons, htk]
      · by_cases hk : k ∈ seen
        · have htk : ¬ t = k := fun h => hts (h ▸ hk)
          have hrec := ih (t :: seen)
          simp [dedupGo, hkey, hts, hk, List.filter_cons, htk, hrec,
            List.mem_cons]
        · by_cases hkt : k = t
          · subst hkt
            have hrec := ih (k :: seen)
            simp [dedupGo, hkey, hts, hk, List.filter_cons, hrec]
          · have htk : ¬ t = k := fun h => hkt h.symm
            have hrec := ih (t :: seen)
            simp [dedupGo, hkey, hts, hk, List.filter_cons, htk, hrec,
              List.mem_cons, hkt]
    | none =>
      have hne : ¬ key it = some k := by rw [hkey]; intro hc; cases hc
      by_cases hk : k ∈ seen
      · simp [dedupGo, hkey, hk, ih, List.filter_cons, hne]
      · simp [dedupGo, hkey, hk, ih, List.filter_cons, hne]

theorem dedupGo_filter_of_none {K : Type} [DecidableEq K]
    (key : LinkItem → Option K) (p : LinkItem → Bool)
    (hp : ∀ it, p it = true → key it = none) :
    ∀ (l : List LinkItem) (seen : List K),
      (dedupGo key l seen).filter p = l.filter p := by
  intro l
  induction l with
  | nil => intro seen; simp [dedupGo]
  | cons it rest ih =>
    intro seen
    cases hkey : key it with
    | some t =>
      have hpf : p it = false := by
        cases hpv : p it
        · rfl
        · exact absurd (hp it hpv) (by simp [hkey])
      by_cases hts : t ∈ seen
      · simp [dedupGo, hkey, hts, ih, List.filter_cons, hpf]
      · simp [dedupGo, hkey, hts, ih, List.filter_cons, hpf]
    | none =>
      cases hpv : p it
      · simp [dedupGo, hkey, ih, List.filter_cons, hpv]
      · simp [dedupGo, hkey, ih, List.filter_cons, hpv]

theorem dedupGo_mem_key {K : Type} [DecidableEq K] (key : LinkItem → Option K) :
    ∀ (l : List LinkItem) (seen : List K) (it : LinkItem),
      it ∈ dedupGo key l seen → ∀ k, key it = some k → k ∉ seen := by
  intro l
  induction l with
  | nil => intro seen it hmem; simp [dedupGo] at hmem
  | cons hd rest ih =>
    intro seen it hmem k hkit
    cases hkey : key hd with
    | some t =>
      by_cases hts : t ∈ seen
      · simp only [dedupGo, hkey, if_pos hts] at hmem
        exact ih seen it hmem k hkit
      · simp only [dedupGo, hkey, if_neg hts] at hmem
        rcases List.mem_cons.mp hmem with heq | hmem2
        · subst heq
          rw [hkey] at hkit; cases hkit
          exact hts
        · have := ih (t :: seen) it hmem2 k hkit
          intro hk; exact this (List.mem_cons_of_mem _ hk)
    | none =>
      simp only [dedupGo, hkey] at hmem
      rcases List.mem_cons.mp hmem with heq | hmem2
      · subst heq; rw [hkey] at hkit; cases hkit
      · exact ih seen it hmem2 k hkit

theorem dedupGo_pairwise {K : Type} [DecidableEq K] (key : LinkItem → Option K) :
    ∀ (l : List LinkItem) (seen : List K),
      (dedupGo key l seen).Pairwise
        (fun a b => ∀ k, key a = some k → key b ≠ some k) := by
  intro l
  induction l with
  | nil => intro seen; simp [dedupGo]
  | cons hd rest ih =>
    intro seen
    cases hkey : key hd with
    | some t =>
      by_cases hts : t ∈ seen
      · simp only [dedupGo, hkey, if_pos hts]; exact ih seen
      · simp only [dedupGo, hkey, if_neg hts]
        refine List.Pairwise.cons ?_ (ih (t :: seen))
        intro b hb k hk hbk
        rw [hkey] at hk; cases hk
        exact dedupGo_mem_key key rest (t :: seen) b hb t hbk (List.mem_cons_self _ _)
    | none =>
      simp only [dedupGo, hkey]
      refine List.Pairwise.cons ?_ (ih seen)
      intro b hb k hk
      rw [hkey] at hk; cases hk

theorem dedupGo_eq_self {K : Type} [DecidableEq K] (key : LinkItem → Option K) :
    ∀ (l : List LinkItem) (seen : List K),
      (∀ it ∈ l, ∀ k, key it = some k → k ∉ seen) →
      l.Pairwise (fun a b => ∀ k, key a = some k → key b ≠ some k) →
      dedupGo key l seen = l := by
  intro l
  induction l with
  | nil => intro seen _ _; simp [dedupGo]
  | cons hd rest ih =>
    intro seen hfresh hpair
    have hpairtail := (List.pairwise_cons.mp hpair).2
    have hpairhd := (List.pairwise_cons.mp hpair).1
    cases hkey : key hd with
    | some t =>
      have hts : t ∉ seen := hfresh hd (List.mem_cons_self _ _) t hkey
      simp only [dedupGo, hkey, if_neg hts]
      congr 1
      refine ih (t :: seen) ?_ hpairtail
      intro it hit k hkit
      intro hk
      rcases List.mem_cons.mp hk with heq | hk2
      · subst heq
        exact hpairhd it hit k hkey hkit
      · exact hfresh it (List.mem_cons_of_mem _ hit) k hkit hk2
    | none =>
      simp only [dedupGo, hkey]
      congr 1
      refine ih seen ?_ hpairtail
      intro it hit k hkit
      exact hfresh it (List.mem_cons_of_mem _ hit) k hkit

/-! Embedded signature extraction, from `extract_embedded_signature`
(lines 379-432). -/

/-- Normalized text head: `' '.join(text.strip().split())[:100]` — whitespace
runs collapsed to single spaces, first 100 characters kept. -/
def cleanTextHead (t : String) : String :=
  ⟨(joinSepChars ([' ']) (wordsOf t.data)).take 100⟩

/-- Model of `re.search(r'status/(\d+)', html)`: the digit run after the
leftmost occurrence of "status/" that is followed by at least one digit. -/
def findStatusId : List Char → Option String
  | [] => none
  | c :: rest =>
    if ("status/".data).isPrefixOf (c :: rest) then
      let digits := ((c :: rest).drop 7).takeWhile Char.isDigit
      if digits.isEmpty then findStatusId rest else some ⟨digits⟩
    else findStatusId rest

/-- Character class `[^/\s"]` of the account regex. -/
def accountChar (c : Char) : Bool :=
  !(c == '/' || c == '"' || c.isWhitespace)

/-- Model of `re.search(r'/([^/\s"]+)/status/', html)`: at the leftmost
position where it fits, a '/', a nonempty run of account characters, then
"/status/".  Because the run cannot contain '/', backtracking never shortens
it, so the group is the maximal run. -/
def findAccount : List Char → Option String
  | [] => none
  | c :: rest =>
    if c = '/' then
      let run := rest.takeWhile accountChar
      if ¬run.isEmpty ∧ ("/status/".data).isPrefixOf (rest.drop run.length) then
        some ⟨run⟩
      else findAccount rest
    else findAccount rest

/-- An embedded candidate element, as the extractor observes it: the
`textContent` evaluation result, the serialized `outerHTML`, and the bounding
box position (Playwright reports floats; the source applies `int(...)`, so the
coordinates are modelled as the resulting integers). -/
structure EmbeddedElem where
  textContent : Option String
  outerHTML : String
  boundingBox : Option (Int × Int)
deriving DecidableEq

/-- The content-derived signature parts, in source order (lines 391-413):
the normalized 100-character text head when the text is truthy, then
`status_<id>` when the id pattern is found in the markup, then
`account_<name>` when the account pattern is found. -/
def embeddedContentParts (e : EmbeddedElem) : List String :=
  let p1 : List String :=
    match e.textContent with
    | some t => if t = "" then [] else [cleanTextHead t]
    | none => []
  let p2 : List String :=
    match findStatusId e.outerHTML.data with
    | some id => ["status_" ++ id]
    | none => []
  let p3 : List String :=
    match findAccount e.outerHTML.data with
    | some a => ["account_" ++ a]
    | none => []
  p1 ++ p2 ++ p3

/-- The last-resort position signature (lines 419-423):
`pos_{int(x)}_{int(y)}` — the raw integer coordinates, with no rounding. -/
def posSignature (x y : Int) : String :=
  "pos_" ++ toString x ++ "_" ++ toString y

/-- `extract_embedded_signature` (lines 379-432): join the content parts with
'|' when any exist; only when there are none (no truthy text and no pattern in
the markup) fall back to the bounding-box position signature; `None` when the
box is also missing.  (The source's outer exception handler and logging have
no effect on the value and are not modelled.) -/
def extract_embedded_signature (e : EmbeddedElem) : Option String :=
  let parts := embeddedContentParts e
  if parts ≠ [] then some (joinSepStr ("|") parts)
  else
    match e.boundingBox with
    | some (x, y) => some (posSignature x y)
    | none => none

/-! Scroll-capture engine, from `scroll_and_capture_links` (lines 554-678).
The Playwright page is abstracted as a driver over a page-state type `σ`:
`scrollTop` reads the conversation viewport's scroll offset, `scrollBy`
performs the upward scroll (including the settle wait), `embedded`/
`directLinks` are the two `query_selector_all` shapes (embedded handles, and
anchor handles with their `href` attribute), `embSig` is the embedded
signature computed for a handle, and `doneVisible` is the check "the chat
viewport exists and contains the done-message text". -/

/-- Driver interface of the scroll-capture engine. -/
structure ScrollDriver (σ : Type) where
  scrollTop : σ → Int
  scrollBy : σ → σ
  embedded : σ → List Nat
  embSig : σ → Nat → Option String
  directLinks : σ → List (Nat × Option String)
  doneVisible : σ → Bool

/-- One capture sweep (lines 586-618, repeated verbatim as the final capture
at lines 636-659): the existing embedded handles and truthy direct hrefs are
computed from the list as it stood before the sweep, then new embedded
elements are appended (by handle identity), then new direct links with truthy
hrefs are appended (by href); within one sweep the "existing" lists are not
updated. -/
def captureBatch {σ : Type} (drv : ScrollDriver σ) (st : σ)
    (captured : List LinkItem) : List LinkItem :=
  let existingEmb :=
    (captured.filter (fun it => it.kind = LinkKind.embedded)).map LinkItem.element
  let existingHrefs :=
    captured.filterMap
      (fun it => if it.kind = LinkKind.direct_link then truthyStr it.href else none)
  let cap1 := captured ++
    (((drv.embedded st).filter (fun e => !existingEmb.contains e)).map
      (fun e =>
        { kind := LinkKind.embedded, href := none, element := e,
          signature := drv.embSig st e }))
  cap1 ++
    ((drv.directLinks st).filterMap
      (fun p =>
        match truthyStr p.2 with
        | some h =>
          if existingHrefs.contains h then none
          else some { kind := LinkKind.direct_link, href := some h,
                      element := p.1, signature := none }
        | none => none))

/-- How a run of the scroll loop ended; the source logs a distinct message for
each of the three exits (lines 576, 624, 630). -/
inductive ScrollExit
  | topReached
  | doneFound
  | ceiling
deriving DecidableEq

/-- Result of the scroll loop: final page state, the value of `scroll_count`
at exit, the captured list, and the exit reason. -/
structure ScrollResult (σ : Type) where
  finalState : σ
  scrollCount : Nat
  captured : List LinkItem
  exit : ScrollExit

/-- The `while not done_message_found` loop (lines 567-631).  Each iteration:
increment `scroll_count`; read the offset; stop if it equals the previous
iteration's offset (top of history — before scrolling); otherwise scroll and
settle; on every `K`-th iteration run a capture sweep; stop if the done
message is visible; stop at the 50-iteration ceiling.  The source guard is
`scroll_count >= 50` checked after the increment, so recursion happens at
counts 1..49: `fuel`, initialized to 49, counts the remaining permitted
recursions and reaches 0 exactly when `scroll_count` reaches 50.  The two
arms share the iteration body and differ only where the source checks the
guard: with no fuel left the iteration ends with the `ceiling` exit instead
of recursing. -/
def scrollLoop {σ : Type} (drv : ScrollDriver σ) (K : Nat) :
    Nat → σ → Option Int → Nat → List LinkItem → ScrollResult σ
  | 0, st, prev, scroll_count, captured =>
    let sc := scroll_count + 1
    let cur := drv.scrollTop st
    if prev = some cur then
      { finalState := st, scrollCount := sc, captured := captured,
        exit := ScrollExit.topReached }
    else
      let st1 := drv.scrollBy st
      let captured1 := if sc % K = 0 then captureBatch drv st1 captured else captured
      if drv.doneVisible st1 then
        { finalState := st1, scrollCount := sc, captured := captured1,
          exit := ScrollExit.doneFound }
      else
        { finalState := st1, scrollCount := sc, captured := captured1,
          exit := ScrollExit.ceiling }
  | fuel + 1, st, prev, scroll_count, captured =>
    let sc := scroll_count + 1
    let cur := drv.scrollTop st
    if prev = some cur then
      { finalState := st, scrollCount := sc, captured := captured,
        exit := ScrollExit.topReached }
    else
      let st1 := drv.scrollBy st
      let captured1 := if sc % K = 0 then captureBatch drv st1 captured else captured
      if drv.doneVisible st1 then
        { finalState := st1, scrollCount := sc, captured := captured1,
          exit := ScrollExit.doneFound }
      else scrollLoop drv K fuel st1 (some cur) sc captured1

/-- The scroll loop as entered by `scroll_and_capture_links`: no previous
offset, `scroll_count = 0`, empty capture list, ceiling at 50. -/
def scroll_capture_loop {σ : Type} (drv : ScrollDriver σ) (K : Nat) (st : σ) :
    ScrollResult σ :=
  scrollLoop drv K 49 st none 0 []

/-- Number of actual scroll actions (`scrollBy` invocations) a loop run
performed: on the top-reached exit the final iteration stops before
scrolling, on the other exits every counted iteration scrolled. -/
def scrollsPerformed {σ : Type} (r : ScrollResult σ) : Nat :=
  if r.exit = ScrollExit.topReached then r.scrollCount - 1 else r.scrollCount

/-- `scroll_and_capture_links` (lines 554-678): run the scroll loop, perform
the final unconditional capture sweep (lines 633-659), then apply the two
duplicate filters (lines 664-669; the position-based embedded filter on
line 672 is commented out in the source and is not applied). -/
def scroll_and_capture_links {σ : Type} (drv : ScrollDriver σ) (K : Nat)
    (st : σ) : List LinkItem :=
  let r := scroll_capture_loop drv K st
  let cap := captureBatch drv r.finalState r.captured
  filter_duplicate_embedded_links (filter_duplicate_direct_links cap)

/-! Action executor, from `retweet_post` (lines 140-309).  The opened
candidate page is abstracted as a driver over a page-state type `σ`; fallible
page operations return `Except Unit`, where `Except.error ()` is a raised
Playwright exception (e.g. a selector-wait timeout or a failed click).  The
interpreter also returns the ordered list of externally visible actions
(attempt starts, page reloads, clicks), mirroring the source's log lines and
click calls, so that "performs no click" is a statement about the result. -/

/-- Outcome of `retweet_post`: the source returns `True`, `"already_retweeted"`
or `"failed"`; modelled as a closed variant. -/
inductive RetweetResult
  | success
  | already_retweeted
  | failed
deriving DecidableEq

/-- Externally visible actions of one `retweet_post` run. -/
inductive RWEvent
  | attemptStart (retry_index : Nat)
  | reloaded
  | clicked (element : Nat)
deriving DecidableEq

/-- Driver interface of the action executor.  `unretweetCount` is
`get_by_test_id("unretweet").count()`, `textCount` is
`get_by_text(text, exact=True).count()`, `waitForSelector` takes the selector
and the timeout in milliseconds and yields an element handle or a timeout
fault, `queryButtons`/`queryMenuItems` are the two `query_selector_all` scans
of the last-resort strategies, `ariaLabel`/`itemText` read an attribute or the
text content of a handle, and `click` mutates the page or faults.  A faulted
operation is modelled as leaving the page state unchanged. -/
structure PostDriver (σ : Type) where
  reload : σ → Except Unit σ
  unretweetCount : σ → Except Unit Nat
  textCount : σ → String → Except Unit Nat
  waitForSelector : σ → String → Nat → Except Unit Nat
  queryButtons : σ → List Nat
  ariaLabel : σ → Nat → Except Unit (Option String)
  queryMenuItems : σ → List Nat
  itemText : σ → Nat → Except Unit (Option String)
  click : σ → Nat → Except Unit σ

/-- The ordered selector strategies for the action button (lines 176-186). -/
def retweet_button_selectors : List String := [
  "button[data-testid=\"retweet\"]",
  "button[aria-label*=\"repost\"]",
  "button[aria-label*=\"Repost\"]",
  "button[aria-label*=\"reposts\"]",
  "button[aria-label*=\"Reposts\"]",
  "button[aria-label*=\"retweet\"]",
  "button[aria-label*=\"Retweet\"]",
  "div[role=\"button\"][data-testid=\"retweet\"]",
  "div[aria-label*=\"repost\"][role=\"button\"]"]

/-- The ordered selector strategies for the confirmation option
(lines 234-244). -/
def retweet_option_selectors : List String := [
  "div[data-testid=\"retweetConfirm\"]",
  "div[role=\"menuitem\"][data-testid=\"retweet\"]",
  "div[data-testid=\"repost\"]",
  "span:has-text(\"Retweet\")",
  "span:has-text(\"Repost\")",
  "div[role=\"menuitem\"]:has-text(\"Repost\")",
  "div[role=\"menuitem\"]:has-text(\"Retweet\")",
  "div[role=\"menu\"] span:has-text(\"Retweet\")",
  "div[role=\"menu\"] span:has-text(\"Repost\")"]

/-- Does an accessible label / text mention either term (lines 213, 270):
lowercase, then substring test for "retweet" or "repost". -/
def mentionsRetweet (s : String) : Bool :=
  hasSubstr ("retweet".data) (lowerStr s).data ||
    hasSubstr ("repost".data) (lowerStr s).data

/-- Selector cascade (lines 189-201 and 247-258): try each selector in order
with `wait_for_selector`; a timeout fault is caught and the next selector is
tried; the first success wins. -/
def findFirstSelector {σ : Type} (drv : PostDriver σ) (st : σ) :
    List String → Nat → Option Nat
  | [], _ => none
  | sel :: rest, timeout =>
    match drv.waitForSelector st sel timeout with
    | Except.ok b => some b
    | Except.error _ => findFirstSelector drv st rest timeout

/-- Last-resort button scan (lines 206-221): every `button` element whose
`aria-label` mentions either term; per-element faults are swallowed. -/
def scanButtons {σ : Type} (drv : PostDriver σ) (st : σ) : List Nat → Option Nat
  | [] => none
  | b :: rest =>
    match drv.ariaLabel st b with
    | Except.ok (some al) =>
      if mentionsRetweet al then some b else scanButtons drv st rest
    | Except.ok none => scanButtons drv st rest
    | Except.error _ => scanButtons drv st rest

/-- Last-resort menu-item scan (lines 263-277): every `div[role="menuitem"]`
whose text content mentions either term; per-element faults are swallowed. -/
def scanMenuItems {σ : Type} (drv : PostDriver σ) (st : σ) : List Nat → Option Nat
  | [] => none
  | it :: rest =>
    match drv.itemText st it with
    | Except.ok (some tx) =>
      if mentionsRetweet tx then some it else scanMenuItems drv st rest
    | Except.ok none => scanMenuItems drv st rest
    | Except.error _ => scanMenuItems drv st rest

/-- The idempotence check (lines 157-175): the "unretweet" test marker, then
the exact texts "Undo repost" and "Undo Retweet".  A fault anywhere in the
check is caught and the executor proceeds to the selector cascade (`none`). -/
def checkAlready {σ : Type} (drv : PostDriver σ) (st : σ) : Option RetweetResult :=
  match drv.unretweetCount st with
  | Except.error _ => none
  | Except.ok u =>
    if u > 0 then some RetweetResult.already_retweeted
    else
      match drv.textCount st ("Undo repost") with
      | Except.error _ => none
      | Except.ok a =>
        if a > 0 then some RetweetResult.already_retweeted
        else
          match drv.textCount st ("Undo Retweet") with
          | Except.error _ => none
          | Except.ok b =>
            if b > 0 then some RetweetResult.already_retweeted else none

/-- One attempt of `retweet_post` — the body of the outer `try` (lines
142-295).  `Except.error st` is a fault that escapes to the outer handler,
carrying the page state at the fault point.  On a retry the page is reloaded
first (lines 143-151); then the idempotence check; then the button cascade
with timeout `5000 + retry_count*2000` and the button scan fallback, where
exhaustion returns `failed` directly (line 225, no retry); then the click;
then the option cascade and menu scan, where exhaustion returns `failed`
directly (line 281); then the confirming click.  The best-effort toast wait
(lines 287-293) cannot change the outcome and is not part of the driver. -/
def retweet_attempt {σ : Type} (drv : PostDriver σ) (st : σ) (retry_count : Nat) :
    Except σ (RetweetResult × σ) × List RWEvent :=
  let ev0 : List RWEvent :=
    if retry_count > 0 then [RWEvent.attemptStart retry_count, RWEvent.reloaded]
    else [RWEvent.attemptStart retry_count]
  let reloadRes : Except Unit σ :=
    if retry_count > 0 then drv.reload st else Except.ok st
  match reloadRes with
  | Except.error _ => (Except.error st, ev0)
  | Except.ok st0 =>
    match checkAlready drv st0 with
    | some r => (Except.ok (r, st0), ev0)
    | none =>
      let timeout := 5000 + retry_count * 2000
      let btn :=
        match findFirstSelector drv st0 retweet_button_selectors timeout with
        | some b => some b
        | none => scanButtons drv st0 (drv.queryButtons st0)
      match btn with
      | none => (Except.ok (RetweetResult.failed, st0), ev0)
      | some b =>
        match drv.click st0 b with
        | Except.error _ => (Except.error st0, ev0)
        | Except.ok st1 =>
          let ev1 := ev0 ++ [RWEvent.clicked b]
          let opt :=
            match findFirstSelector drv st1 retweet_option_selectors timeout with
            | some o => some o
            | none => scanMenuItems drv st1 (drv.queryMenuItems st1)
          match opt with
          | none => (Except.ok (RetweetResult.failed, st1), ev1)
          | some o =>
            match drv.click st1 o with
            | Except.error _ => (Except.error st1, ev1)
            | Except.ok st2 =>
              (Except.ok (RetweetResult.success, st2), ev1 ++ [RWEvent.clicked o])

/-- Retry wrapper — the outer `except` handler (lines 296-309): a fault is
retried while `retry_count < max_retries` (each retry recursing with
`retry_count + 1`); exhaustion yields the terminal `failed`.  `fuel` is
`max_retries - retry_count`, so `fuel = 0` exactly when no retries remain. -/
def retweetGo {σ : Type} (drv : PostDriver σ) :
    Nat → σ → Nat → List RWEvent → RetweetResult × List RWEvent
  | fuel, st, retry_count, acc =>
    match retweet_attempt drv st retry_count with
    | (Except.ok (r, _), ev) => (r, acc ++ ev)
    | (Except.error stE, ev) =>
      match fuel with
      | 0 => (RetweetResult.failed, acc ++ ev)
      | fuel' + 1 => retweetGo drv fuel' stE (retry_count + 1) (acc ++ ev)

/-- `retweet_post` (lines 140-309) as invoked: `retry_count = 0`, the given
`max_retries` (the source default is 3). -/
def retweet_post {σ : Type} (drv : PostDriver σ) (st : σ) (max_retries : Nat) :
    RetweetResult × List RWEvent :=
  retweetGo drv max_retries st 0 []

/-- Number of attempts recorded in an event trace. -/
def attemptsOf (tr : List RWEvent) : Nat :=
  tr.countP (fun e =>
    match e with
    | RWEvent.attemptStart _ => true
    | _ => false)

/-! Per-chat outcome tallying, from `process_chat_tweets` (lines 973-1018).
Each candidate is processed by `open_tweet_in_new_tab`, whose result is
`"retweeted"`, `"already_retweeted"` or anything else (counted as failed);
after the loop the "Done" watermark message is sent if and only if
`tweets_retweeted > 0` (lines 1006-1015). -/

/-- Result of `open_tweet_in_new_tab` for one candidate. -/
inductive OpenResult
  | retweeted
  | already_retweeted
  | failed
deriving DecidableEq

/-- The per-chat counters. -/
structure ChatSummary where
  retweeted : Nat
  already : Nat
  failures : Nat
deriving DecidableEq

/-- One step of the counting loop (lines 989-994): `"retweeted"` and
`"already_retweeted"` bump their counters, anything else counts as failed. -/
def tallyStep (s : ChatSummary) (r : OpenResult) : ChatSummary :=
  match r with
  | OpenResult.retweeted => { s with retweeted := s.retweeted + 1 }
  | OpenResult.already_retweeted => { s with already := s.already + 1 }
  | OpenResult.failed => { s with failures := s.failures + 1 }

/-- The counting loop of lines 977-996. -/
def chat_tally (results : List OpenResult) : ChatSummary :=
  results.foldl tallyStep { retweeted := 0, already := 0, failures := 0 }

/-- The watermark decision (lines 1006-1015): `send_done_message` is invoked
iff at least one candidate was newly retweeted. -/
def sends_done_message (results : List OpenResult) : Bool :=
  decide (0 < (chat_tally results).retweeted)

/-! Credential loading, from `parse_cookies_from_file` (lines 93-137) and the
cookie-loading step of `run_script` (lines 1123-1132). -/

/-- A parsed cookie row.  In the source, `secure`/`httpOnly` keys are only
ever added with value `True`; key absence is modelled as `false`. -/
structure Cookie where
  name : String
  value : String
  domain : String
  path : Option String
  secure : Bool
  httpOnly : Bool
  sameSite : Option String
deriving DecidableEq

/-- Parse one line of the tab-separated cookie file (lines 101-133): strip;
skip blanks and `//` comments; split on tabs; skip rows with fewer than three
fields; `path` from field 3 when present; `secure` when field 5 contains '✓';
`httpOnly` when field 6 contains '✓'; `sameSite` from field 7 when it is one
of None/Lax/Strict. -/
def parse_cookie_line (line : String) : Option Cookie :=
  let stripped : List Char := stripChars line.data
  if stripped.isEmpty then none
  else if ("//".data).isPrefixOf stripped then none
  else
    let parts : List String := (splitOnChar '\t' stripped).map (fun w => ⟨w⟩)
    if parts.length < 3 then none
    else some {
      name := parts.getD 0 "",
      value := parts.getD 1 "",
      domain := parts.getD 2 "",
      path := if parts.length > 3 then some (parts.getD 3 "") else none,
      secure := decide (parts.length > 5) && (parts.getD 5 "").data.contains '✓',
      httpOnly := decide (parts.length > 6) && (parts.getD 6 "").data.contains '✓',
      sameSite :=
        if parts.length > 7 ∧ parts.getD 7 "" ∈ (["None", "Lax", "Strict"] : List String)
        then some (parts.getD 7 "") else none }

/-- `parse_cookies_from_file` (lines 93-137).  The whole read is wrapped in
`try/except Exception` which prints the error and falls through to
`return cookies`: a wholly unreadable file (`Except.error ()`) therefore
yields the empty list — it does not raise. -/
def parse_cookies_from_file (contents : Except Unit (List String)) : List Cookie :=
  match contents with
  | Except.error _ => []
  | Except.ok lines => lines.filterMap parse_cookie_line

/-- What the cookie-loading step of `run_script` leads to. -/
inductive CookieLoadOutcome
  | proceeded (cookies : List Cookie)
  | aborted
deriving DecidableEq

/-- The cookie-loading step of `run_script` (lines 1123-1132): parse the file,
then `context.add_cookies(cookies)`; only a fault raised inside this block
(in practice: by `add_cookies`, since the parser swallows its own faults)
reaches the `except` clause whose `return` aborts the run.  `add_cookies_ok`
models whether `add_cookies` accepts the given cookie list. -/
def cookie_load_step (contents : Except Unit (List String))
    (add_cookies_ok : List Cookie → Bool) : CookieLoadOutcome :=
  let cookies := parse_cookies_from_file contents
  if add_cookies_ok cookies then CookieLoadOutcome.proceeded cookies
  else CookieLoadOutcome.aborted

/-! Concrete scenario data used by the claim theorems below. -/

/-- First literal capture row of the dedup scenario:
`{kind: DirectLink, href: "/abc/status/100"}` (element handles and the absent
`signature` key are immaterial to the scenario). -/
def c4item1 : LinkItem :=
  { kind := LinkKind.direct_link, href := some "/abc/status/100",
    element := 1, signature := none }

/-- Second literal capture row: the same href on a different handle. -/
def c4item2 : LinkItem :=
  { kind := LinkKind.direct_link, href := some "/abc/status/100",
    element := 2, signature := none }

/-- Third literal capture row: `{kind: DirectLink, href: "/xyz/status/200"}`. -/
def c4item3 : LinkItem :=
  { kind := LinkKind.direct_link, href := some "/xyz/status/200",
    element := 3, signature := none }

/-- A direct link whose href is not status-shaped
(`extract_status_signature` yields `none`). -/
def c7item : LinkItem :=
  { kind := LinkKind.direct_link, href := some "/home",
    element := 5, signature := none }

/-- Is a capture row a direct link that is not status-shaped? -/
def nonStatusDirect (it : LinkItem) : Bool :=
  decide (it.kind = LinkKind.direct_link) && (extract_status_signature it.href).isNone

/-- Claim C4: `filter_duplicate_direct_links` keeps exactly one DirectLink per
distinct `(account, id)` signature, preserving first-seen order — the output
is a sublist of the input (so nothing is added, duplicated or reordered), and
for every signature the surviving rows are exactly the first input row with
that signature; on the literal scenario input the output has the two items
with statuses `[100, 200]` in first-occurrence order. -/
theorem spec_c4_dedup_direct_links :
    (∀ l : List LinkItem, List.Sublist (filter_duplicate_direct_links l) l) ∧
    (∀ (l : List LinkItem) (s : String × String),
      (filter_duplicate_direct_links l).filter
          (fun it => decide (keyDirect it = some s)) =
        (l.filter (fun it => decide (keyDirect it = some s))).take 1) ∧
    filter_duplicate_direct_links [c4item1, c4item2, c4item3] = [c4item1, c4item3] ∧
    (filter_duplicate_direct_links [c4item1, c4item2, c4item3]).map
        (fun it => extract_status_signature it.href) =
      [some ("abc", "100"), some ("xyz", "200")] := by
  refine ⟨?_, ?_, by decide, by decide⟩
  · intro l
    rw [filter_duplicate_direct_links, fddlGo_eq_dedupGo]
    exact dedupGo_sublist keyDirect l []
  · intro l s
    rw [filter_duplicate_direct_links, fddlGo_eq_dedupGo]
    simpa using dedupGo_filter_key keyDirect s l []

/-- Claim C7: direct links that are not status-shaped are kept
unconditionally by `filter_duplicate_direct_links` — filtering the output for
them gives exactly the same rows as filtering the input, and two identical
non-status rows both survive. -/
theorem spec_c7_nonstatus_links_kept :
    (∀ l : List LinkItem,
      (filter_duplicate_direct_links l).filter nonStatusDirect =
        l.filter nonStatusDirect) ∧
    filter_duplicate_direct_links [c7item, c7item] = [c7item, c7item] := by
  refine ⟨?_, by decide⟩
  intro l
  rw [filter_duplicate_direct_links, fddlGo_eq_dedupGo]
  refine dedupGo_filter_of_none keyDirect nonStatusDirect ?_ l []
  intro it hp
  rw [nonStatusDirect, Bool.and_eq_true] at hp
  have h1 : it.kind = LinkKind.direct_link := of_decide_eq_true hp.1
  have h2 : extract_status_signature it.href = none :=
    Option.isNone_iff_eq_none.mp hp.2
  simp [keyDirect, h1, h2]

/-- Claim C10: the dedup pipeline returns a sublist of its input (no element
added, reordered or duplicated) and is idempotent. -/
theorem spec_c10_pipeline_sublist_idem :
    (∀ l : List LinkItem, List.Sublist (dedup_pipeline l) l) ∧
    (∀ l : List LinkItem, dedup_pipeline (dedup_pipeline l) = dedup_pipeline l) := by
  have hFD : ∀ l : List LinkItem,
      filter_duplicate_direct_links l = dedupGo keyDirect l [] := by
    intro l; rw [filter_duplicate_direct_links, fddlGo_eq_dedupGo]
  have hFE : ∀ l : List LinkItem,
      filter_duplicate_embedded_links l = dedupGo keyEmbedded l [] := by
    intro l; rw [filter_duplicate_embedded_links, fdelGo_eq_dedupGo]
  constructor
  · intro l
    rw [dedup_pipeline, hFD, hFE]
    exact (dedupGo_sublist keyEmbedded _ []).trans (dedupGo_sublist keyDirect l [])
  · intro l
    have hpD : (filter_duplicate_direct_links l).Pairwise
        (fun a b => ∀ k, keyDirect a = some k → keyDirect b ≠ some k) := by
      rw [hFD]; exact dedupGo_pairwise keyDirect l []
    have hsub : List.Sublist (dedup_pipeline l) (filter_duplicate_direct_links l) := by
      rw [dedup_pipeline, hFE]
      exact dedupGo_sublist keyEmbedded _ []
    have hpD2 : (dedup_pipeline l).Pairwise
        (fun a b => ∀ k, keyDirect a = some k → keyDirect b ≠ some k) :=
      List.Pairwise.sublist hsub hpD
    have hpE2 : (dedup_pipeline l).Pairwise
        (fun a b => ∀ k, keyEmbedded a = some k → keyEmbedded b ≠ some k) := by
      rw [dedup_pipeline, hFE]
      exact dedupGo_pairwise keyEmbedded _ []
    have hFDfix : filter_duplicate_direct_links (dedup_pipeline l) = dedup_pipeline l := by
      rw [hFD]
      exact dedupGo_eq_self keyDirect (dedup_pipeline l) [] (by simp) hpD2
    have hFEfix : filter_duplicate_embedded_links (dedup_pipeline l) = dedup_pipeline l := by
      rw [hFE]
      exact dedupGo_eq_self keyEmbedded (dedup_pipeline l) [] (by simp) hpE2
    show filter_duplicate_embedded_links
        (filter_duplicate_direct_links (dedup_pipeline l)) = dedup_pipeline l
    rw [hFDfix, hFEfix]

/-- Number of `retweeted` outcomes in a result list. -/
def countRet : List OpenResult → Nat
  | [] => 0
  | OpenResult.retweeted :: rest => countRet rest + 1
  | _ :: rest => countRet rest

theorem chat_tally_foldl_retweeted :
    ∀ (results : List OpenResult) (s : ChatSummary),
      (results.foldl tallyStep s).retweeted = s.retweeted + countRet results := by
  intro results
  induction results with
  | nil => intro s; simp [countRet]
  | cons r rest ih =>
    intro s
    cases r
    · simp only [List.foldl_cons, tallyStep, countRet, ih]; omega
    · simp [tallyStep, countRet, ih]
    · simp [tallyStep, countRet, ih]

theorem countRet_pos_iff (results : List OpenResult) :
    0 < countRet results ↔ OpenResult.retweeted ∈ results := by
  induction results with
  | nil => simp [countRet]
  | cons r rest ih =>
    cases r <;> simp [countRet, ih]

/-- Claim C3: `process_chat_tweets` invokes the watermark action
(`send_done_message`) if and only if at least one candidate produced the
`retweeted` outcome; in particular with no candidates, or with only
already-retweeted and failed outcomes, it is never invoked. -/
theorem spec_c3_watermark_iff_amplified :
    (∀ results : List OpenResult,
      sends_done_message results = true ↔ OpenResult.retweeted ∈ results) ∧
    sends_done_message [] = false ∧
    sends_done_message
      [OpenResult.already_retweeted, OpenResult.failed,
       OpenResult.already_retweeted] = false := by
  refine ⟨?_, by decide, by decide⟩
  intro results
  rw [sends_done_message, decide_eq_true_eq, chat_tally,
    chat_tally_foldl_retweeted]
  simpa using countRet_pos_iff results

/-- Claim C9, counterexample: a wholly unreadable credential file does not
abort the run.  `parse_cookies_from_file` catches the read fault internally
and returns the empty cookie list, so the `except`/`return` guard in
`run_script` (lines 1130-1132) is not reached (Playwright's
`add_cookies([])` accepts the empty list, modelled by the `fun _ => true`
acceptor): the run proceeds to open the main page and process conversations
with zero cookies, contradicting the claimed abort. -/
theorem spec_c9_counterexample :
    parse_cookies_from_file (Except.error ()) = [] ∧
    cookie_load_step (Except.error ()) (fun _ => true) =
      CookieLoadOutcome.proceeded [] ∧
    cookie_load_step (Except.error ()) (fun _ => true) ≠ CookieLoadOutcome.aborted := by
  decide

/-- Claim C9 as amended: on a wholly unreadable credential file the cookie
parser swallows the fault and returns the empty list, and the run proceeds
(no abort) whenever applying the empty cookie list to the browser context
succeeds; `run_script` aborts only when `add_cookies` itself raises. -/
theorem spec_c9_unreadable_credentials_proceed :
    ∀ add_cookies_ok : List Cookie → Bool,
      add_cookies_ok [] = true →
      cookie_load_step (Except.error ()) add_cookies_ok =
        CookieLoadOutcome.proceeded [] := by
  intro ok hok
  simp [cookie_load_step, parse_cookies_from_file, hok]

/-- Witness for the amended C9 theorem at the accept-everything context. -/
theorem spec_c9_unreadable_credentials_proceed_witness :
    cookie_load_step (Except.error ()) (fun _ => true) =
      CookieLoadOutcome.proceeded [] :=
  spec_c9_unreadable_credentials_proceed (fun _ => true) rfl

/-- A candidate page reporting the "unretweet" test marker present (count 1);
all locate strategies fail, so any mutation attempt would be visible. -/
def postDriverAlready : PostDriver Unit :=
  { reload := fun _ => Except.ok (),
    unretweetCount := fun _ => Except.ok 1,
    textCount := fun _ _ => Except.ok 0,
    waitForSelector := fun _ _ _ => Except.error (),
    queryButtons := fun _ => [],
    ariaLabel := fun _ _ => Except.ok none,
    queryMenuItems := fun _ => [],
    itemText := fun _ _ => Except.ok none,
    click := fun _ _ => Except.error () }

/-- A candidate page where every selector wait times out and no button
exists: the undo checks report absence, every `wait_for_selector` faults, and
`query_selector_all('button')` is empty. -/
def postDriverNoButton : PostDriver Unit :=
  { reload := fun _ => Except.ok (),
    unretweetCount := fun _ => Except.ok 0,
    textCount := fun _ _ => Except.ok 0,
    waitForSelector := fun _ _ _ => Except.error (),
    queryButtons := fun _ => [],
    ariaLabel := fun _ _ => Except.error (),
    queryMenuItems := fun _ => [],
    itemText := fun _ _ => Except.error (),
    click := fun _ _ => Except.error () }

/-- A candidate page whose transient failures raise: the idempotence check
faults, the first button selector finds handle 7, and every click raises. -/
def postDriverClickFault : PostDriver Unit :=
  { reload := fun _ => Except.ok (),
    unretweetCount := fun _ => Except.error (),
    textCount := fun _ _ => Except.error (),
    waitForSelector := fun _ sel _ =>
      if sel = "button[data-testid=\"retweet\"]" then Except.ok 7
      else Except.error (),
    queryButtons := fun _ => [],
    ariaLabel := fun _ _ => Except.error (),
    queryMenuItems := fun _ => [],
    itemText := fun _ _ => Except.error (),
    click := fun _ _ => Except.error () }

/-- Claim C1: whenever the driver reports the undo affordance present — the
"unretweet" test marker counts positive, or that count is zero and the exact
text "Undo repost" counts positive, or both are zero and "Undo Retweet"
counts positive (each reading requiring the probes actually performed to
succeed, which is what "the driver reports" means operationally) —
`retweet_post` returns `already_retweeted` and its action trace is exactly
the single attempt-start: no click on the action button or the confirmation
option, and no reload, is performed. -/
theorem spec_c1_idempotence_already_amplified :
    ∀ (σ : Type) (drv : PostDriver σ) (st : σ),
      ((∃ n, drv.unretweetCount st = Except.ok (n + 1)) ∨
       (drv.unretweetCount st = Except.ok 0 ∧
        ∃ n, drv.textCount st ("Undo repost") = Except.ok (n + 1)) ∨
       (drv.unretweetCount st = Except.ok 0 ∧
        drv.textCount st ("Undo repost") = Except.ok 0 ∧
        ∃ n, drv.textCount st ("Undo Retweet") = Except.ok (n + 1))) →
      retweet_post drv st 3 =
        (RetweetResult.already_retweeted, [RWEvent.attemptStart 0]) ∧
      ∀ e, RWEvent.clicked e ∉ (retweet_post drv st 3).2 := by
  intro σ drv st h
  have hchk : checkAlready drv st = some RetweetResult.already_retweeted := by
    rcases h with ⟨n, h1⟩ | ⟨h1, n, h2⟩ | ⟨h1, h2, n, h3⟩
    · simp [checkAlready, h1]
    · simp [checkAlready, h1, h2]
    · simp [checkAlready, h1, h2, h3]
  have hmain : retweet_post drv st 3 =
      (RetweetResult.already_retweeted, [RWEvent.attemptStart 0]) := by
    simp [retweet_post, retweetGo, retweet_attempt, hchk]
  refine ⟨hmain, ?_⟩
  intro e
  rw [hmain]
  simp

/-- Witness for the C1 theorem at a concrete page with the marker present. -/
theorem spec_c1_idempotence_already_amplified_witness :
    retweet_post postDriverAlready () 3 =
      (RetweetResult.already_retweeted, [RWEvent.attemptStart 0]) ∧
    ∀ e, RWEvent.clicked e ∉ (retweet_post postDriverAlready () 3).2 :=
  spec_c1_idempotence_already_amplified Unit postDriverAlready ()
    (Or.inl ⟨0, rfl⟩)

/-- Claim C2, counterexample: against a page where every selector wait fails
and no action button is ever found, `retweet_post` with `max_retries = 3`
returns `failed` after a single attempt — `return "failed"` on button-locate
exhaustion (line 225) is a direct return inside the `try`, so no retry
happens, contradicting the claimed `maxRetries + 1 = 4` attempts. -/
theorem spec_c2_counterexample :
    retweet_post postDriverNoButton () 3 =
      (RetweetResult.failed, [RWEvent.attemptStart 0]) ∧
    attemptsOf (retweet_post postDriverNoButton () 3).2 = 1 ∧
    (1 : Nat) ≠ 3 + 1 := by
  decide

theorem findFirstSelector_all_error {σ : Type} (drv : PostDriver σ) (st : σ)
    (tm : Nat) (h : ∀ sel t, drv.waitForSelector st sel t = Except.error ()) :
    ∀ sels : List String, findFirstSelector drv st sels tm = none := by
  intro sels
  induction sels with
  | nil => rfl
  | cons s rest ih => simp [findFirstSelector, h, ih]

/-- Claim C2 as amended: when the locate strategies merely come up empty
(every selector wait times out and the button scan finds nothing),
`retweet_post` returns the terminal `failed` after exactly one attempt,
without retrying; the `maxRetries + 1 = 4` attempt bound applies to attempts
that abort with a raised fault — against a page whose reload succeeds, whose
idempotence check faults, whose first button selector succeeds and whose
click always raises, `retweet_post` terminates after exactly 4 attempts
(3 reloads) with `failed`, never looping indefinitely. -/
theorem spec_c2_bounded_retry :
    (∀ (σ : Type) (drv : PostDriver σ) (st : σ),
       drv.unretweetCount st = Except.ok 0 →
       drv.textCount st ("Undo repost") = Except.ok 0 →
       drv.textCount st ("Undo Retweet") = Except.ok 0 →
       (∀ sel t, drv.waitForSelector st sel t = Except.error ()) →
       drv.queryButtons st = [] →
       retweet_post drv st 3 = (RetweetResult.failed, [RWEvent.attemptStart 0]) ∧
       attemptsOf (retweet_post drv st 3).2 = 1) ∧
    (∀ (σ : Type) (drv : PostDriver σ) (st : σ) (b : Nat),
       drv.reload st = Except.ok st →
       drv.unretweetCount st = Except.error () →
       (∀ t, drv.waitForSelector st ("button[data-testid=\"retweet\"]") t =
         Except.ok b) →
       drv.click st b = Except.error () →
       retweet_post drv st 3 =
         (RetweetResult.failed,
          [RWEvent.attemptStart 0, RWEvent.attemptStart 1, RWEvent.reloaded,
           RWEvent.attemptStart 2, RWEvent.reloaded, RWEvent.attemptStart 3,
           RWEvent.reloaded]) ∧
       attemptsOf (retweet_post drv st 3).2 = 4) := by
  constructor
  · intro σ drv st h1 h2 h3 h4 h5
    have hchk : checkAlready drv st = none := by
      simp [checkAlready, h1, h2, h3]
    have hbtn : ∀ tm : Nat,
        findFirstSelector drv st retweet_button_selectors tm = none :=
      fun tm => findFirstSelector_all_error drv st tm h4 _
    have hmain : retweet_post drv st 3 =
        (RetweetResult.failed, [RWEvent.attemptStart 0]) := by
      simp [retweet_post, retweetGo, retweet_attempt, hchk, hbtn, h5, scanButtons]
    refine ⟨hmain, ?_⟩
    rw [hmain]
    decide
  · intro σ drv st b hrl hun hbt hclick
    have hatt : ∀ rc : Nat, retweet_attempt drv st rc =
        (Except.error st,
         if rc > 0 then [RWEvent.attemptStart rc, RWEvent.reloaded]
         else [RWEvent.attemptStart rc]) := by
      intro rc
      have hchk : checkAlready drv st = none := by simp [checkAlready, hun]
      by_cases hrc : rc > 0
      · simp [retweet_attempt, hrc, hrl, hchk, findFirstSelector,
          retweet_button_selectors, hbt, hclick]
      · simp [retweet_attempt, hrc, hchk, findFirstSelector,
          retweet_button_selectors, hbt, hclick]
    have hmain : retweet_post drv st 3 =
        (RetweetResult.failed,
         [RWEvent.attemptStart 0, RWEvent.attemptStart 1, RWEvent.reloaded,
          RWEvent.attemptStart 2, RWEvent.reloaded, RWEvent.attemptStart 3,
          RWEvent.reloaded]) := by
      simp [retweet_post, retweetGo, hatt]
    refine ⟨hmain, ?_⟩
    rw [hmain]
    decide

/-- Witness for the amended C2 theorem: its empty-locate part at the
no-button page, and its raised-fault part at the failing-click page. -/
theorem spec_c2_bounded_retry_witness :
    (retweet_post postDriverNoButton () 3 =
        (RetweetResult.failed, [RWEvent.attemptStart 0]) ∧
     attemptsOf (retweet_post postDriverNoButton () 3).2 = 1) ∧
    (retweet_post postDriverClickFault () 3 =
        (RetweetResult.failed,
         [RWEvent.attemptStart 0, RWEvent.attemptStart 1, RWEvent.reloaded,
          RWEvent.attemptStart 2, RWEvent.reloaded, RWEvent.attemptStart 3,
          RWEvent.reloaded]) ∧
     attemptsOf (retweet_post postDriverClickFault () 3).2 = 4) :=
  ⟨spec_c2_bounded_retry.1 Unit postDriverNoButton () rfl rfl rfl
      (fun _ _ => rfl) rfl,
   spec_c2_bounded_retry.2 Unit postDriverClickFault () 7 rfl rfl
      (fun _ => rfl) rfl⟩

/-- Conversation page of the watermark scenario: the watermark ("Done")
message is visible in the viewport from the start, and two direct-link
candidates are attached to the document — handle 1 rendered above the
watermark and handle 2 below it (their on-screen positions are recorded in
`candidatePosC5`; the engine has no operation that could read them, which is
exactly what the scenario exercises). -/
def scrollDriverC5 : ScrollDriver Unit :=
  { scrollTop := fun _ => 0,
    scrollBy := fun _ => (),
    embedded := fun _ => [],
    embSig := fun _ _ => none,
    directLinks := fun _ =>
      [(1, some ("/abc/status/300")), (2, some ("/xyz/status/700"))],
    doneVisible := fun _ => true }

/-- The scenario's watermark bottom edge: vertical position 500. -/
def watermarkBottomC5 : Int := 500

/-- The scenario's candidate positions: handle 1 at 300 (above the watermark
bottom), handle 2 at 700 (below it).  Scenario metadata only — no engine
operation observes it. -/
def candidatePosC5 (e : Nat) : Int :=
  if e = 1 then 300 else 700

/-- Claim C5, counterexample: candidate A (handle 1, position 300, strictly
above the watermark's bottom edge at 500) is nevertheless in the capture
result, so the result does not "contain only B" — `scroll_and_capture_links`
stops scrolling when the watermark is visible but applies no per-candidate
position filter. -/
theorem spec_c5_counterexample :
    candidatePosC5 1 < watermarkBottomC5 ∧
    watermarkBottomC5 < candidatePosC5 2 ∧
    some ("/abc/status/300") ∈
      (scroll_and_capture_links scrollDriverC5 2 ()).map LinkItem.href ∧
    (scroll_and_capture_links scrollDriverC5 2 ()).map LinkItem.href ≠
      [some ("/xyz/status/700")] := by
  decide

/-- Claim C5 as amended: the watermark bounds capture only temporally — the
scroll loop stops as soon as the watermark is visible in the viewport
(`doneFound`) — and no positional filtering is applied: in the scenario both
candidate A (position 300, above the watermark bottom 500) and candidate B
(position 700, below it) are in the capture result, in document order. -/
theorem spec_c5_watermark_stops_scroll_no_position_filter :
    (scroll_capture_loop scrollDriverC5 2 ()).exit = ScrollExit.doneFound ∧
    candidatePosC5 1 < watermarkBottomC5 ∧
    (scroll_and_capture_links scrollDriverC5 2 ()).map LinkItem.href =
      [some ("/abc/status/300"), some ("/xyz/status/700")] := by
  decide

/-- Conversation page whose scroll offset never changes: every capture shape
is empty and the watermark is never visible, so only the unchanged-offset
stop condition can end the loop. -/
def scrollDriverStuck : ScrollDriver Unit :=
  { scrollTop := fun _ => 0,
    scrollBy := fun _ => (),
    embedded := fun _ => [],
    embSig := fun _ _ => none,
    directLinks := fun _ => [],
    doneVisible := fun _ => false }

theorem scrollLoop_count_le {σ : Type} (drv : ScrollDriver σ) (K : Nat) :
    ∀ (fuel : Nat) (st : σ) (prev : Option Int) (sc : Nat) (cap : List LinkItem),
      (scrollLoop drv K fuel st prev sc cap).scrollCount ≤ sc + fuel + 1 := by
  intro fuel
  induction fuel with
  | zero =>
    intro st prev sc cap
    by_cases h1 : prev = some (drv.scrollTop st)
    · simp [scrollLoop, h1]
    · by_cases h2 : drv.doneVisible (drv.scrollBy st) <;> simp [scrollLoop, h1, h2]
  | succ fuel ih =>
    intro st prev sc cap
    by_cases h1 : prev = some (drv.scrollTop st)
    · simp [scrollLoop, h1]
    · by_cases h2 : drv.doneVisible (drv.scrollBy st)
      · simp [scrollLoop, h1, h2]
      · simp only [scrollLoop, h1, h2]
        simp only [if_neg h1, Bool.not_eq_true] at *
        simp only [h2, Bool.false_eq_true, if_false]
        refine le_trans (ih _ _ _ _) ?_
        omega

theorem scrollLoop_offset_stable_early {σ : Type} (drv : ScrollDriver σ)
    (st : σ) (K fuel : Nat)
    (h : drv.scrollTop (drv.scrollBy (drv.scrollBy st)) =
      drv.scrollTop (drv.scrollBy st)) :
    (scrollLoop drv K (fuel + 1 + 1 + 1) st none 0 []).exit ≠ ScrollExit.ceiling ∧
    scrollsPerformed (scrollLoop drv K (fuel + 1 + 1 + 1) st none 0 []) ≤ 2 := by
  by_cases hd1 : drv.doneVisible (drv.scrollBy st)
  · constructor
    · simp [scrollLoop, hd1]
    · simp [scrollLoop, hd1, scrollsPerformed]
  · by_cases he : drv.scrollTop st = drv.scrollTop (drv.scrollBy st)
    · constructor
      · simp [scrollLoop, hd1, he]
      · simp [scrollLoop, hd1, he, scrollsPerformed]
    · by_cases hd2 : drv.doneVisible (drv.scrollBy (drv.scrollBy st))
      · constructor
        · simp [scrollLoop, hd1, he, hd2]
        · simp [scrollLoop, hd1, he, hd2, scrollsPerformed]
      · constructor
        · simp [scrollLoop, hd1, he, hd2, h]
        · simp [scrollLoop, hd1, he, hd2, h, scrollsPerformed]

/-- Claim C6: against a conversation page whose scroll offset is unchanged
from the first scrolled state to the second, the scroll loop performs at most
2 scroll steps — its exit is never the 50-iteration ceiling (the final,
non-scrolling iteration detects the unchanged offset, or the watermark ends
the loop even earlier) — and against every page the loop's iteration counter
never exceeds 50. -/
theorem spec_c6_scroll_termination :
    (∀ (σ : Type) (drv : ScrollDriver σ) (st : σ) (K : Nat),
      drv.scrollTop (drv.scrollBy (drv.scrollBy st)) =
          drv.scrollTop (drv.scrollBy st) →
      (scroll_capture_loop drv K st).exit ≠ ScrollExit.ceiling ∧
      scrollsPerformed (scroll_capture_loop drv K st) ≤ 2) ∧
    (∀ (σ : Type) (drv : ScrollDriver σ) (st : σ) (K : Nat),
      (scroll_capture_loop drv K st).scrollCount ≤ 50) := by
  constructor
  · intro σ drv st K h
    exact scrollLoop_offset_stable_early drv st K 46 h
  · intro σ drv st K
    have := scrollLoop_count_le drv K 49 st none 0 []
    simpa [scroll_capture_loop] using this

/-- Witness for the C6 theorem at the stuck page: the offset is constant, the
loop stops via the unchanged-offset condition after one scroll. -/
theorem spec_c6_scroll_termination_witness :
    scrollDriverStuck.scrollTop (scrollDriverStuck.scrollBy (scrollDriverStuck.scrollBy ())) =
      scrollDriverStuck.scrollTop (scrollDriverStuck.scrollBy ()) ∧
    (scroll_capture_loop scrollDriverStuck 2 ()).exit ≠ ScrollExit.ceiling ∧
    scrollsPerformed (scroll_capture_loop scrollDriverStuck 2 ()) ≤ 2 :=
  ⟨rfl,
   (spec_c6_scroll_termination.1 Unit scrollDriverStuck () 2 rfl).1,
   (spec_c6_scroll_termination.1 Unit scrollDriverStuck () 2 rfl).2⟩

/-- An embedded element with truthy text content, no status pattern in its
markup, and a bounding box at (123, 45). -/
def embElemTextOnly : EmbeddedElem :=
  { textContent := some "hello world",
    outerHTML := "<div class=\"css-175oi2r\"><span>hello world</span></div>",
    boundingBox := some (123, 45) }

/-- An embedded element with no text, no pattern, and a bounding box at
(123, 45). -/
def embElemBare : EmbeddedElem :=
  { textContent := none,
    outerHTML := "<div></div>",
    boundingBox := some (123, 45) }

/-- Claim C8, counterexample: for an element whose markup contains no
`<account>/status/<id>` pattern but whose text is truthy, the signature is
the normalized text head alone — not a bounding-box identity (moving the box
does not change it) — so "if no such pattern exists, fall back to a coarse
bounding-box identity" is false; and when the fallback does apply (no text,
no pattern) it is `pos_123_45`, the raw truncated coordinates, not a position
rounded to the nearest 10 px unit (the 10 px rounding lives only in
`filter_duplicate_embedded_by_position`, which line 672 leaves uncalled). -/
theorem spec_c8_counterexample :
    findStatusId embElemTextOnly.outerHTML.data = none ∧
    findAccount embElemTextOnly.outerHTML.data = none ∧
    extract_embedded_signature embElemTextOnly = some ("hello world") ∧
    extract_embedded_signature { embElemTextOnly with boundingBox := some (999, 999) } =
      some ("hello world") ∧
    extract_embedded_signature embElemBare = some ("pos_123_45") := by
  decide

/-- Claim C8 as amended: `extract_embedded_signature` builds the signature
from content components in source order — the normalized 100-character text
head when the text is truthy, then `status_<id>` and `account_<name>` when
the markup patterns are found, joined by '|' — and whenever any content
component exists the bounding box is never consulted; only when there is no
truthy text and no pattern does it fall back to the position signature
`pos_<int x>_<int y>` of the raw (unrounded) box coordinates, or `none`
without a box. -/
theorem spec_c8_embedded_signature_priority :
    (∀ (e : EmbeddedElem) (b : Option (Int × Int)),
      embeddedContentParts e ≠ [] →
      extract_embedded_signature { e with boundingBox := b } =
        extract_embedded_signature e) ∧
    (∀ (e : EmbeddedElem) (t : String),
      e.textContent = some t → t ≠ "" →
      findStatusId e.outerHTML.data = none →
      findAccount e.outerHTML.data = none →
      extract_embedded_signature e = some (cleanTextHead t)) ∧
    (∀ (e : EmbeddedElem) (t idn acc : String),
      e.textContent = some t → t ≠ "" →
      findStatusId e.outerHTML.data = some idn →
      findAccount e.outerHTML.data = some acc →
      extract_embedded_signature e =
        some (joinSepStr ("|")
          [cleanTextHead t, "status_" ++ idn, "account_" ++ acc])) ∧
    (∀ e : EmbeddedElem,
      embeddedContentParts e = [] →
      extract_embedded_signature e =
        Option.map (fun p => posSignature p.1 p.2) e.boundingBox) := by
  refine ⟨?_, ?_, ?_, ?_⟩
  · intro e b hne
    have hparts : embeddedContentParts { e with boundingBox := b } =
        embeddedContentParts e := rfl
    rw [extract_embedded_signature, extract_embedded_signature, hparts,
      if_pos hne, if_pos hne]
  · intro e t ht htne hs ha
    have hparts : embeddedContentParts e = [cleanTextHead t] := by
      simp [embeddedContentParts, ht, htne, hs, ha]
    rw [extract_embedded_signature, hparts]
    simp [joinSepStr]
  · intro e t idn acc ht htne hs ha
    have hparts : embeddedContentParts e =
        [cleanTextHead t, "status_" ++ idn, "account_" ++ acc] := by
      simp [embeddedContentParts, ht, htne, hs, ha]
    rw [extract_embedded_signature, hparts]
    simp
  · intro e h
    rw [extract_embedded_signature, h]
    simp only [ne_eq, not_true_eq_false, if_neg, not_false_eq_true]
    cases e.boundingBox with
    | none => rfl
    | some p => cases p; rfl

/-- Witness for the amended C8 theorem: box-independence and the text-only
signature at the concrete text-only element, and the position fallback at the
concrete bare element. -/
theorem spec_c8_embedded_signature_priority_witness :
    extract_embedded_signature { embElemTextOnly with boundingBox := some (0, 0) } =
      extract_embedded_signature embElemTextOnly ∧
    extract_embedded_signature embElemTextOnly = some (cleanTextHead ("hello world")) ∧
    extract_embedded_signature embElemBare =
      Option.map (fun p => posSignature p.1 p.2) embElemBare.boundingBox :=
  ⟨spec_c8_embedded_signature_priority.1 embElemTextOnly (some (0, 0)) (by decide),
   spec_c8_embedded_signature_priority.2.1 embElemTextOnly ("hello world") rfl
     (by decide) (by decide) (by decide),
   spec_c8_embedded_signature_priority.2.2.2 embElemBare (by decide)⟩

end RepostBot
